import Mathlib

/-!
A verification development for the weather-to-agronomy computation core of the
Datasprint dashboard (source: `src/src/pages/Dashboard.tsx`).

JavaScript numbers are modelled as exact rationals (`ℚ`); `toFixed` rendering
and the tolerant leading-number parse (`num`) are modelled over `String`
character lists.  All definitions are executable.
-/

/-! ## Decimal rendering and tolerant numeric parsing -/

/-- Floor of a rational number, as used for decimal rendering. -/
def ratFloor (q : ℚ) : ℤ := q.num.fdiv (q.den : ℤ)

/-- Decimal digit characters of a positive natural number (fuel-driven). -/
def natDigitsAux : Nat → Nat → List Char
  | 0, _ => []
  | _ + 1, 0 => []
  | fuel + 1, n => natDigitsAux fuel (n / 10) ++ [Char.ofNat (48 + n % 10)]

/-- `Number.prototype.toFixed(f)`: round `x` to the nearest multiple of
`10 ^ (-f)` (ties toward larger) and render with exactly `f` decimals. -/
def toFixed (x : ℚ) (f : Nat) : String :=
  let sign := if x < 0 then "-" else ""
  let y := if x < 0 then -x else x
  let n := (ratFloor (y * 10 ^ f + 1 / 2)).toNat
  let ds := if n = 0 then ['0'] else natDigitsAux (n + 1) n
  if f = 0 then sign ++ String.mk ds
  else
    let ds := if ds.length < f + 1 then List.replicate (f + 1 - ds.length) '0' ++ ds else ds
    sign ++ String.mk (ds.take (ds.length - f)) ++ "." ++ String.mk (ds.drop (ds.length - f))

/-- Numeric value of a list of decimal digit characters. -/
def digitsVal (ds : List Char) : Nat :=
  ds.foldl (fun a c => a * 10 + (c.toNat - 48)) 0

/-- Match an unsigned decimal token `\d+(\.\d+)?` at the head of the input. -/
def matchDigits (cs : List Char) : Option ℚ :=
  let ds := cs.takeWhile Char.isDigit
  if ds = [] then none
  else
    let rest := cs.dropWhile Char.isDigit
    let ip : ℚ := (digitsVal ds : ℕ)
    match rest with
    | '.' :: rest2 =>
      let fs := rest2.takeWhile Char.isDigit
      if fs = [] then some ip
      else some (ip + (digitsVal fs : ℚ) / (10 ^ fs.length : ℚ))
    | _ => some ip

/-- Match a signed decimal token `-?\d+(\.\d+)?` at the head of the input. -/
def matchAt : List Char → Option ℚ
  | '-' :: rest => (matchDigits rest).map (fun v => -v)
  | cs => matchDigits cs

/-- First signed decimal token occurring anywhere in the input, else `0`. -/
def numChars : List Char → ℚ
  | [] => 0
  | c :: rest =>
    match matchAt (c :: rest) with
    | some v => v
    | none => numChars rest

/-- `num`: extract the first signed decimal number from a display string
(e.g. `"210 kg/ha" ↦ 210`), returning `0` when no numeric token is present. -/
def num (s : String) : ℚ := numChars s.data

/-- Whether the character list `p` occurs at the head of `t`. -/
def charsLead : List Char → List Char → Bool
  | [], _ => true
  | _ :: _, [] => false
  | p :: ps, c :: cs => p = c && charsLead ps cs

/-- `String.includes`: substring containment test. -/
def nameContains (s pat : String) : Bool :=
  s.data.tails.any (fun t => charsLead pat.data t)

/-! ## Data model -/

/-- Daily min/max temperature. -/
structure Temp where
  min : ℚ
  max : ℚ
deriving DecidableEq

/-- One calendar day of the forecast (`WeatherDaily` in the source); the
optional `rain`, `wind_speed` and `humidity` fields default to absent. -/
structure WeatherDaily where
  dt : ℤ
  temp : Temp
  pop : ℚ
  rain : Option ℚ := none
  wind_speed : Option ℚ := none
  humidity : Option ℚ := none
deriving DecidableEq

/-- A (name, value-with-unit display string, qualitative status) triple. -/
structure SoilItem where
  name : String
  value : String
  status : String
deriving DecidableEq

/-- The soil-health record: general metrics, macro- and micro-nutrients. -/
structure SoilData where
  general : List SoilItem
  macroNutrients : List SoilItem
  microNutrients : List SoilItem
deriving DecidableEq

/-- The five recommendation strings. -/
structure Recs where
  fertilizer : String
  zinc : String
  pH : String
  irrigation : String
  pest : String
deriving DecidableEq

/-- Result of `analyzeWeather`. -/
structure AnalyzeResult where
  alerts : List String
  adjustedSoil : SoilData
  recs : Recs
deriving DecidableEq

/-- Baseline soil record (`detailedSoilData` in the source). -/
def detailedSoilData : SoilData :=
  { general :=
      [⟨"pH Level", "5.8", "Low"⟩, ⟨"Organic Carbon (OC)", "0.45%", "Low"⟩]
    macroNutrients :=
      [⟨"Nitrogen (N)", "210 kg/ha", "Low"⟩, ⟨"Phosphorus (P)", "15 kg/ha", "Optimal"⟩,
       ⟨"Potassium (K)", "120 kg/ha", "Low"⟩]
    microNutrients :=
      [⟨"Zinc (Zn)", "0.5 ppm", "Low"⟩, ⟨"Iron (Fe)", "4.8 ppm", "Optimal"⟩] }

/-- Area-unit conversion table (`conversionFactors` in the source). -/
def conversionFactors : List (String × ℚ) :=
  [("sq_m", 1), ("sq_ft", 10.7639), ("acres", 0.000247105),
   ("hectares", 0.0001), ("bigha", 0.000074752), ("katha", 0.00149505)]

/-- The displayed field-area string: `(fieldAreaInSqM * conversionFactors[unit]).toFixed(2)`
when a positive area has been measured, `"0.00"` otherwise.  (The unit always
comes from the fixed select menu, so the lookup is over the six known keys.) -/
def displayedArea (fieldAreaInSqM : ℚ) (unit : String) : String :=
  if 0 < fieldAreaInSqM then
    toFixed (fieldAreaInSqM * ((conversionFactors.lookup unit).getD 0)) 2
  else "0.00"

/-! ## Geometry resolver (`computeCentroid`) -/

/-- Cross term `x_i * y_{i+1} - x_{i+1} * y_i` of the closed loop at index `i`
(wrapping the last vertex to the first). -/
def crossAt (l : List (ℚ × ℚ)) (i : ℕ) : ℚ :=
  let p := l.getD i (0, 0)
  let q := l.getD ((i + 1) % l.length) (0, 0)
  p.1 * q.2 - q.1 * p.2

/-- Accumulated `cx` term `(x_i + x_{i+1}) * cross_i` at index `i`. -/
def cxAt (l : List (ℚ × ℚ)) (i : ℕ) : ℚ :=
  let p := l.getD i (0, 0)
  let q := l.getD ((i + 1) % l.length) (0, 0)
  (p.1 + q.1) * (p.1 * q.2 - q.1 * p.2)

/-- Accumulated `cy` term `(y_i + y_{i+1}) * cross_i` at index `i`. -/
def cyAt (l : List (ℚ × ℚ)) (i : ℕ) : ℚ :=
  let p := l.getD i (0, 0)
  let q := l.getD ((i + 1) % l.length) (0, 0)
  (p.2 + q.2) * (p.1 * q.2 - q.1 * p.2)

/-- One iteration of the centroid loop: add the cross, cx and cy terms. -/
def centroidStep (l : List (ℚ × ℚ)) (acc : ℚ × ℚ × ℚ) (i : ℕ) : ℚ × ℚ × ℚ :=
  (acc.1 + crossAt l i, acc.2.1 + cxAt l i, acc.2.2 + cyAt l i)

/-- `computeCentroid`: signed-area (shoelace) polygon centroid with the
degenerate-area fallback to the first vertex; `none` on empty input. -/
def computeCentroid (coords : List (ℚ × ℚ)) : Option (ℚ × ℚ) :=
  match coords with
  | [] => none
  | c0 :: rest =>
    let cs := c0 :: rest
    let acc := (List.range cs.length).foldl (centroidStep cs) (0, 0, 0)
    let area := acc.1 * 0.5
    if |area| < 1e-12 then some c0
    else some (acc.2.1 / (6 * area), acc.2.2 / (6 * area))

/-- Specification-side signed shoelace area
`A = ½ Σ (x_i·y_{i+1} − x_{i+1}·y_i)` over the closed loop. -/
def signedArea (l : List (ℚ × ℚ)) : ℚ :=
  (1 / 2) * ((List.range l.length).map (crossAt l)).sum

/-- Specification-side shoelace centroid x-coordinate
`Cx = (1/6A) Σ (x_i+x_{i+1})(x_i·y_{i+1}−x_{i+1}·y_i)`. -/
def centroidX (l : List (ℚ × ℚ)) : ℚ :=
  (1 / (6 * signedArea l)) * ((List.range l.length).map (cxAt l)).sum

/-- Specification-side shoelace centroid y-coordinate. -/
def centroidY (l : List (ℚ × ℚ)) : ℚ :=
  (1 / (6 * signedArea l)) * ((List.range l.length).map (cyAt l)).sum

/-! ## Weather analyzer (`analyzeWeather`) -/

/-- Heavy-rain day: `rainAmount >= 50 || (pop >= 0.8 && rainAmount >= 30)`
with an absent `rain` field read as `0`. -/
def isHeavyRainDay (d : WeatherDaily) : Bool :=
  decide (50 ≤ d.rain.getD 0) || (decide (0.8 ≤ d.pop) && decide (30 ≤ d.rain.getD 0))

/-- Dry-hot day: `pop <= 0.2 && temp.max >= 35`. -/
def isDryHot (d : WeatherDaily) : Bool :=
  decide (d.pop ≤ 0.2) && decide (35 ≤ d.temp.max)

/-- High-wind per-day alert condition: `(wind_speed ?? 0) >= 12`. -/
def windCond (d : WeatherDaily) : Bool :=
  decide (12 ≤ d.wind_speed.getD 0)

/-- Fungal-pressure per-day alert condition: `(humidity ?? 0) >= 90 && temp.max >= 28`. -/
def fungalCond (d : WeatherDaily) : Bool :=
  decide (90 ≤ d.humidity.getD 0) && decide (28 ≤ d.temp.max)

def highWindAlert : String := "High winds expected — risk of lodging and spray drift."
def fungalAlert : String := "Very humid & warm — fungal disease pressure likely."
def leachingAlert : String := "Heavy rain likely — leaching of Nitrogen and Potassium expected."
def droughtAlert : String := "Heat wave & dry spell for 3+ days — drought stress risk."
def noRiskAlert : String := "No unusual weather risks detected this week."

/-- The alerts pushed while visiting one day (wind first, then fungal). -/
def perDayAlerts (d : WeatherDaily) : List String :=
  (if windCond d then [highWindAlert] else []) ++
  (if fungalCond d then [fungalAlert] else [])

/-- Mutable state of the per-day `forEach` pass. -/
structure ScanState where
  alerts : List String
  heavyRainDays : ℕ
  droughtStreak : ℕ
  maxHeatStreak : ℕ

/-- One iteration of the per-day pass. -/
def dayStep (s : ScanState) (d : WeatherDaily) : ScanState :=
  { alerts := s.alerts ++ perDayAlerts d
    heavyRainDays := if isHeavyRainDay d then s.heavyRainDays + 1 else s.heavyRainDays
    droughtStreak := if isDryHot d then s.droughtStreak + 1 else 0
    maxHeatStreak := max s.maxHeatStreak (if isDryHot d then s.droughtStreak + 1 else 0) }

/-- Update the first element satisfying `p` (JavaScript `find` + in-place write). -/
def updateFirst (l : List SoilItem) (p : SoilItem → Bool) (f : SoilItem → SoilItem) :
    List SoilItem :=
  match l with
  | [] => []
  | a :: rest => if p a then f a :: rest else a :: updateFirst rest p f

/-- Heavy-rain soil adjustment: N ×0.90, K ×0.92, pH −0.1, OC ×0.98
(all floored at 0, re-rendered at the original precision and unit suffix). -/
def adjustSoilRain (s : SoilData) : SoilData :=
  { s with
    macroNutrients :=
      updateFirst
        (updateFirst s.macroNutrients (fun it => nameContains it.name "(N)")
          (fun it => { it with value := toFixed (max 0 (num it.value * 0.9)) 0 ++ " kg/ha" }))
        (fun it => nameContains it.name "(K)")
        (fun it => { it with value := toFixed (max 0 (num it.value * 0.92)) 0 ++ " kg/ha" })
    general :=
      updateFirst
        (updateFirst s.general (fun it => nameContains it.name "pH")
          (fun it => { it with value := toFixed (max 0 (num it.value - 0.1)) 1 }))
        (fun it => nameContains it.name "Organic Carbon")
        (fun it => { it with value := toFixed (max 0 (num it.value * 0.98)) 2 ++ "%" }) }

/-- Heat-streak soil adjustment: K ×0.95 (floored at 0), pH +0.1 (no floor),
OC ×1.03 (no floor). -/
def adjustSoilHeat (s : SoilData) : SoilData :=
  { s with
    macroNutrients :=
      updateFirst s.macroNutrients (fun it => nameContains it.name "(K)")
        (fun it => { it with value := toFixed (max 0 (num it.value * 0.95)) 0 ++ " kg/ha" })
    general :=
      updateFirst
        (updateFirst s.general (fun it => nameContains it.name "pH")
          (fun it => { it with value := toFixed (num it.value + 0.1) 1 }))
        (fun it => nameContains it.name "Organic Carbon")
        (fun it => { it with value := toFixed (num it.value * 1.03) 2 ++ "%" }) }

/-- `v < low ? 'Low' : v > high ? 'High' : 'Optimal'`. -/
def statusOf (v low high : ℚ) : String :=
  if v < low then "Low" else if high < v then "High" else "Optimal"

/-- Numeric value of the first item whose name contains `pat` (0 when absent). -/
def findVal (l : List SoilItem) (pat : String) : ℚ :=
  match l.find? (fun it => nameContains it.name pat) with
  | some it => num it.value
  | none => 0

/-- Set the status of the first item with exactly the given name. -/
def setStatusByName (l : List SoilItem) (nm st : String) : List SoilItem :=
  updateFirst l (fun it => it.name = nm) (fun it => { it with status := st })

/-- `setStatus`: recompute the qualitative status of every adjusted numeric
field from the fixed thresholds. -/
def setStatusFn (adjusted : SoilData) : SoilData :=
  let n := findVal adjusted.macroNutrients "(N)"
  let p := findVal adjusted.macroNutrients "(P)"
  let k := findVal adjusted.macroNutrients "(K)"
  let ph := findVal adjusted.general "pH"
  let oc := findVal adjusted.general "Organic Carbon"
  { adjusted with
    macroNutrients :=
      setStatusByName
        (setStatusByName
          (setStatusByName adjusted.macroNutrients "Nitrogen (N)" (statusOf n 250 350))
          "Phosphorus (P)" (statusOf p 12 30))
        "Potassium (K)" (statusOf k 150 300)
    general :=
      setStatusByName
        (setStatusByName adjusted.general "pH Level" (statusOf ph 6.0 7.5))
        "Organic Carbon (OC)" (statusOf oc 0.75 1.5) }

def fertilizerRainRec : String :=
  "Split-apply N & K (e.g., Urea + MOP) after heavy rain; add stabilizers (NBPT) to reduce N losses."
def fertilizerHeatRec : String :=
  "Prefer K-rich blends (e.g., 10-5-20) to aid osmotic balance; avoid surface-applied urea before irrigation."
def fertilizerDefaultRec : String :=
  "Balanced NPK (10-5-20). Base dose with top-up based on soil test and crop stage."
def zincRec : String :=
  "Apply Zinc Sulphate (21%) ~10 kg/acre at soil prep or 0.5% foliar if deficiency persists."
def pHRainNote : String := "Consider light liming to buffer acidity from rain; "
def limingRec : String := "Use dolomitic lime if Mg is low."
def irrigationHeatRec : String :=
  "Adopt shorter, more frequent irrigation; mulch to conserve soil moisture."
def irrigationRainRec : String :=
  "Delay irrigation for 2–3 days post heavy rain; improve drainage if waterlogging."
def irrigationDefaultRec : String :=
  "Irrigate 2–3 days interval based on field condition."
def pestHumidRec : String :=
  "High humidity: scout for late blight; preventive Mancozeb/Chlorothalonil spray window."
def pestDefaultRec : String :=
  "Keep scouting for aphids/whiteflies; use yellow sticky traps; spot-treat with Imidacloprid if needed."

/-- Remove duplicates keeping the first occurrence (`Array.from(new Set(xs))`). -/
def dedupFirstAux (seen : List String) : List String → List String
  | [] => []
  | a :: rest =>
    if a ∈ seen then dedupFirstAux seen rest
    else a :: dedupFirstAux (a :: seen) rest

/-- Encounter-order de-duplication of the alert list. -/
def dedupFirst (l : List String) : List String := dedupFirstAux [] l

/-- `analyzeWeather`: the weather-to-agronomy analyzer. -/
def analyzeWeather (daily : List WeatherDaily) : AnalyzeResult :=
  let s := daily.foldl dayStep ⟨[], 0, 0, 0⟩
  let alerts :=
    s.alerts ++
    (if 1 ≤ s.heavyRainDays then [leachingAlert] else []) ++
    (if 3 ≤ s.maxHeatStreak then [droughtAlert] else [])
  let alerts := if alerts = [] then [noRiskAlert] else alerts
  let adjusted := detailedSoilData
  let adjusted := if 1 ≤ s.heavyRainDays then adjustSoilRain adjusted else adjusted
  let adjusted := if 3 ≤ s.maxHeatStreak then adjustSoilHeat adjusted else adjusted
  let adjusted := setStatusFn adjusted
  let recs : Recs :=
    { fertilizer :=
        if s.heavyRainDays ≠ 0 then fertilizerRainRec
        else if 3 ≤ s.maxHeatStreak then fertilizerHeatRec
        else fertilizerDefaultRec
      zinc := zincRec
      pH := (if s.heavyRainDays ≠ 0 then pHRainNote else "") ++ limingRec
      irrigation :=
        if 3 ≤ s.maxHeatStreak then irrigationHeatRec
        else if s.heavyRainDays ≠ 0 then irrigationRainRec
        else irrigationDefaultRec
      pest :=
        if daily.any (fun d => decide (90 ≤ d.humidity.getD 0)) then pestHumidRec
        else pestDefaultRec }
  { alerts := dedupFirst alerts, adjustedSoil := adjusted, recs := recs }

/-! ## Specification-side descriptions -/

/-- Specification-side: the per-day hazard alerts emitted during the
chronological day pass, in encounter order. -/
def collectAlerts : List WeatherDaily → List String
  | [] => []
  | d :: rest => perDayAlerts d ++ collectAlerts rest

/-- Specification-side: number of heavy-rain days in the week. -/
def countHeavy : List WeatherDaily → ℕ
  | [] => 0
  | d :: rest => (if isHeavyRainDay d then 1 else 0) + countHeavy rest

/-- Length of the leading run of `true` in a boolean list. -/
def runLen (l : List Bool) : ℕ := (l.takeWhile id).length

/-- Specification-side: the maximum length of a run of consecutive `true`
entries, as the maximum over all suffixes of the leading-run length. -/
def maxRunTails (l : List Bool) : ℕ := (l.tails.map runLen).foldr max 0

/-- Specification-side: maximum number of consecutive dry-hot days. -/
def maxDryHotRun (daily : List WeatherDaily) : ℕ :=
  maxRunTails (daily.map isDryHot)

/-- Code-side streak recursion: maximum run length when the day before the
list already ended a run of length `c`. -/
def maxRunFrom (c : ℕ) : List Bool → ℕ
  | [] => c
  | b :: l => if b then maxRunFrom (c + 1) l else max c (maxRunFrom 0 l)

/-- Specification-side alert sequence: per-day alerts in encounter order, then
the leaching alert iff some day is a heavy-rain day, then the drought alert iff
the maximum dry-hot run is at least 3, with the sentinel when nothing fired. -/
def specAlerts (daily : List WeatherDaily) : List String :=
  let raw :=
    collectAlerts daily ++
    (if daily.any isHeavyRainDay then [leachingAlert] else []) ++
    (if 3 ≤ maxDryHotRun daily then [droughtAlert] else [])
  if raw = [] then [noRiskAlert] else raw

/-- Specification-side status thresholds: Low below `low`, High above `high`,
Optimal in between. -/
def specStatus (low high v : ℚ) : String :=
  if v < low then "Low" else if high < v then "High" else "Optimal"

/-- Specification-side per-field thresholds, keyed by field name. -/
def thresholdStatus (nm : String) (v : ℚ) : Option String :=
  if nm = "Nitrogen (N)" then some (specStatus 250 350 v)
  else if nm = "Phosphorus (P)" then some (specStatus 12 30 v)
  else if nm = "Potassium (K)" then some (specStatus 150 300 v)
  else if nm = "pH Level" then some (specStatus 6.0 7.5 v)
  else if nm = "Organic Carbon (OC)" then some (specStatus 0.75 1.5 v)
  else none

/-- The default recommendation texts (initial `adaptiveRecs` state). -/
def defaultAdaptiveRecs : Recs :=
  { fertilizer := fertilizerDefaultRec, zinc := zincRec, pH := limingRec,
    irrigation := irrigationDefaultRec, pest := pestDefaultRec }

/-! ## Concrete scenarios -/

/-- A calm day: no rain signal, light wind, moderate humidity. -/
def calmDay : WeatherDaily :=
  { dt := 0, temp := ⟨15, 25⟩, pop := 0.1, rain := some 0,
    wind_speed := some 2, humidity := some 40 }

/-- A heavy-rain day with 55 mm of rain. -/
def rainyDay : WeatherDaily :=
  { dt := 0, temp := ⟨18, 25⟩, pop := 0.5, rain := some 55 }

/-- A dry-hot day: pop 0.1 and max temperature 36. -/
def dryHotDay : WeatherDaily :=
  { dt := 0, temp := ⟨20, 36⟩, pop := 0.1 }

/-- A day whose optional fields are all absent. -/
def bareDay : WeatherDaily := { dt := 0, temp := ⟨20, 25⟩, pop := 0.5 }

/-- Scenario A: seven calm days. -/
def scenarioA : List WeatherDaily := List.replicate 7 calmDay

/-- Scenario B: exactly one day with 55 mm of rain, the rest calm. -/
def scenarioB : List WeatherDaily :=
  [rainyDay, calmDay, calmDay, calmDay, calmDay, calmDay, calmDay]

/-- Scenario C: three consecutive dry-hot days, no rain anywhere. -/
def scenarioC : List WeatherDaily :=
  [calmDay, dryHotDay, dryHotDay, dryHotDay, calmDay, calmDay, calmDay]

/-- Unit square, used to exercise the regular centroid branch. -/
def unitSquare : List (ℚ × ℚ) := [(0, 0), (1, 0), (1, 1), (0, 1)]

/-- A self-intersecting quadrilateral with nonzero signed area. -/
def bowtiePoly : List (ℚ × ℚ) := [(0, 0), (1, 0), (0, 1), (11 / 10, 1)]

/-- A concrete right triangle. -/
def triEx : List (ℚ × ℚ) := [(0, 0), (1, 0), (0, 1)]

/-! ## Helper lemmas: de-duplication -/

lemma mem_dedupFirstAux (seen l : List String) (b : String) :
    b ∈ dedupFirstAux seen l ↔ b ∈ l ∧ b ∉ seen := by
  induction l generalizing seen with
  | nil => simp [dedupFirstAux]
  | cons a rest ih =>
    by_cases ha : a ∈ seen
    · rw [dedupFirstAux, if_pos ha, ih]
      constructor
      · rintro ⟨hb, hs⟩
        exact ⟨List.mem_cons_of_mem _ hb, hs⟩
      · rintro ⟨hb, hs⟩
        rcases List.mem_cons.1 hb with rfl | hb
        · exact absurd ha hs
        · exact ⟨hb, hs⟩
    · rw [dedupFirstAux, if_neg ha]
      constructor
      · intro hmem
        rcases List.mem_cons.1 hmem with rfl | hmem
        · exact ⟨List.mem_cons_self _ _, ha⟩
        · rcases (ih _).1 hmem with ⟨hb, hs⟩
          exact ⟨List.mem_cons_of_mem _ hb,
            fun hbs => hs (List.mem_cons_of_mem _ hbs)⟩
      · rintro ⟨hb, hs⟩
        rcases List.mem_cons.1 hb with rfl | hb
        · exact List.mem_cons_self _ _
        · by_cases hba : b = a
          · subst hba
            exact List.mem_cons_self _ _
          · refine List.mem_cons_of_mem _ ((ih _).2 ⟨hb, ?_⟩)
            simp [List.mem_cons, hba, hs]

lemma nodup_dedupFirstAux (seen l : List String) : (dedupFirstAux seen l).Nodup := by
  induction l generalizing seen with
  | nil => simp [dedupFirstAux]
  | cons a rest ih =>
    by_cases ha : a ∈ seen
    · rw [dedupFirstAux, if_pos ha]
      exact ih seen
    · rw [dedupFirstAux, if_neg ha]
      refine List.nodup_cons.2 ⟨fun hmem => ?_, ih _⟩
      exact ((mem_dedupFirstAux _ _ _).1 hmem).2 (List.mem_cons_self _ _)

lemma dedupFirst_nodup (l : List String) : (dedupFirst l).Nodup :=
  nodup_dedupFirstAux [] l

lemma dedupFirst_ne_nil (l : List String) (h : l ≠ []) : dedupFirst l ≠ [] := by
  cases l with
  | nil => exact absurd rfl h
  | cons a rest => simp [dedupFirst, dedupFirstAux]

/-! ## Helper lemmas: the per-day scan -/

lemma scan_alerts (daily : List WeatherDaily) (s : ScanState) :
    (daily.foldl dayStep s).alerts = s.alerts ++ collectAlerts daily := by
  induction daily generalizing s with
  | nil => simp [collectAlerts]
  | cons d rest ih =>
    rw [List.foldl_cons, ih]
    simp [dayStep, collectAlerts, List.append_assoc]

lemma scan_rain (daily : List WeatherDaily) (s : ScanState) :
    (daily.foldl dayStep s).heavyRainDays = s.heavyRainDays + countHeavy daily := by
  induction daily generalizing s with
  | nil => simp [countHeavy]
  | cons d rest ih =>
    rw [List.foldl_cons, ih]
    cases h : isHeavyRainDay d
    all_goals simp [dayStep, countHeavy, h]
    all_goals omega

lemma le_maxRunFrom (c : ℕ) (l : List Bool) : c ≤ maxRunFrom c l := by
  induction l generalizing c with
  | nil => simp [maxRunFrom]
  | cons b rest ih =>
    rw [maxRunFrom]
    cases b with
    | true => simpa using le_trans (Nat.le_succ c) (ih (c + 1))
    | false => simp

lemma scan_maxHeat (daily : List WeatherDaily) (s : ScanState)
    (h : s.droughtStreak ≤ s.maxHeatStreak) :
    (daily.foldl dayStep s).maxHeatStreak
      = max s.maxHeatStreak (maxRunFrom s.droughtStreak (daily.map isDryHot)) := by
  induction daily generalizing s with
  | nil => simp [maxRunFrom, Nat.max_eq_left h]
  | cons d rest ih =>
    rw [List.foldl_cons]
    cases hd : isDryHot d with
    | true =>
      rw [ih (dayStep s d) (by simp [dayStep, hd])]
      have h1 : s.droughtStreak + 1
          ≤ maxRunFrom (s.droughtStreak + 1) (rest.map isDryHot) := le_maxRunFrom _ _
      simp only [dayStep, hd, if_true, List.map_cons, maxRunFrom]
      omega
    | false =>
      rw [ih (dayStep s d) (by simp [dayStep, hd])]
      simp only [dayStep, hd, Bool.false_eq_true, if_false, List.map_cons, maxRunFrom]
      omega

lemma maxRunTails_cons (b : Bool) (l : List Bool) :
    maxRunTails (b :: l) = max (runLen (b :: l)) (maxRunTails l) := by
  simp [maxRunTails, List.tails_cons]

lemma runLen_le_maxRunTails (l : List Bool) : runLen l ≤ maxRunTails l := by
  cases l with
  | nil => simp [runLen, maxRunTails, List.tails]
  | cons b rest =>
    rw [maxRunTails_cons]
    exact le_max_left _ _

lemma maxRunFrom_eq (c : ℕ) (l : List Bool) :
    maxRunFrom c l = max (c + runLen l) (maxRunTails l) := by
  induction l generalizing c with
  | nil => simp [maxRunFrom, runLen, maxRunTails, List.tails]
  | cons b rest ih =>
    cases b with
    | true =>
      rw [maxRunFrom, if_pos rfl, ih, maxRunTails_cons]
      have hr : runLen (true :: rest) = runLen rest + 1 := by
        simp [runLen, List.takeWhile]
      rw [hr]
      omega
    | false =>
      rw [maxRunFrom, if_neg (by simp), ih, maxRunTails_cons]
      have hr : runLen (false :: rest) = 0 := by
        simp [runLen, List.takeWhile]
      have h2 : runLen rest ≤ maxRunTails rest := runLen_le_maxRunTails rest
      rw [hr]
      omega

lemma maxRunFrom_zero (l : List Bool) : maxRunFrom 0 l = maxRunTails l := by
  rw [maxRunFrom_eq]
  have := runLen_le_maxRunTails l
  omega

lemma analyzeWeather_scan (daily : List WeatherDaily) :
    (daily.foldl dayStep ⟨[], 0, 0, 0⟩).alerts = collectAlerts daily ∧
    (daily.foldl dayStep ⟨[], 0, 0, 0⟩).heavyRainDays = countHeavy daily ∧
    (daily.foldl dayStep ⟨[], 0, 0, 0⟩).maxHeatStreak = maxDryHotRun daily := by
  refine ⟨?_, ?_, ?_⟩
  · simpa using scan_alerts daily ⟨[], 0, 0, 0⟩
  · simpa using scan_rain daily ⟨[], 0, 0, 0⟩
  · have h := scan_maxHeat daily ⟨[], 0, 0, 0⟩ (by simp)
    simpa [maxDryHotRun, maxRunFrom_zero] using h

lemma countHeavy_pos_iff (daily : List WeatherDaily) :
    1 ≤ countHeavy daily ↔ daily.any isHeavyRainDay = true := by
  induction daily with
  | nil => simp [countHeavy]
  | cons d rest ih =>
    cases h : isHeavyRainDay d with
    | true => simp [countHeavy, h]
    | false => simp [countHeavy, h, ih]

lemma countHeavy_eq_zero (daily : List WeatherDaily)
    (h : ∀ d ∈ daily, isHeavyRainDay d = false) : countHeavy daily = 0 := by
  induction daily with
  | nil => rfl
  | cons d rest ih =>
    simp [countHeavy, h d (List.mem_cons_self _ _),
      ih fun d' hd' => h d' (List.mem_cons_of_mem _ hd')]

lemma analyzeWeather_alerts_eq (daily : List WeatherDaily) :
    (analyzeWeather daily).alerts = dedupFirst (specAlerts daily) := by
  obtain ⟨ha, hr, hm⟩ := analyzeWeather_scan daily
  have hif : (if 1 ≤ countHeavy daily then [leachingAlert] else [])
      = (if daily.any isHeavyRainDay then [leachingAlert] else []) :=
    if_congr (countHeavy_pos_iff daily) rfl rfl
  simp only [analyzeWeather, specAlerts, ha, hr, hm, hif]

lemma specAlerts_ne_nil (daily : List WeatherDaily) : specAlerts daily ≠ [] := by
  simp only [specAlerts]
  by_cases h :
      (collectAlerts daily ++
        (if daily.any isHeavyRainDay then [leachingAlert] else []) ++
        (if 3 ≤ maxDryHotRun daily then [droughtAlert] else [])) = []
  · rw [if_pos h]
    simp
  · rw [if_neg h]
    exact h

/-- C1: for every forecast list, the alert list returned by `analyzeWeather` is
exactly the de-duplicated, encounter-order sequence of the per-day high-wind
and fungal alerts, then the leaching alert iff some heavy-rain day exists, then
the drought alert iff the maximum dry-hot run is at least 3, with the sentinel
when no rule fired; consequently it has no duplicates and is never empty. -/
theorem claim_C1 (daily : List WeatherDaily) :
    (analyzeWeather daily).alerts = dedupFirst (specAlerts daily) ∧
    (analyzeWeather daily).alerts.Nodup ∧
    (analyzeWeather daily).alerts ≠ [] := by
  refine ⟨analyzeWeather_alerts_eq daily, ?_, ?_⟩
  · rw [analyzeWeather_alerts_eq daily]
    exact dedupFirst_nodup _
  · rw [analyzeWeather_alerts_eq daily]
    exact dedupFirst_ne_nil _ (specAlerts_ne_nil daily)

/-- Closed instance of `claim_C1` at a concrete forecast. -/
theorem claim_C1_witness :
    (analyzeWeather scenarioB).alerts = dedupFirst (specAlerts scenarioB) ∧
    (analyzeWeather scenarioB).alerts.Nodup ∧
    (analyzeWeather scenarioB).alerts ≠ [] :=
  claim_C1 scenarioB

lemma analyzeWeather_adjusted (daily : List WeatherDaily) :
    (analyzeWeather daily).adjustedSoil =
      setStatusFn
        (if 3 ≤ maxDryHotRun daily then
          adjustSoilHeat
            (if 1 ≤ countHeavy daily then adjustSoilRain detailedSoilData
             else detailedSoilData)
         else
          (if 1 ≤ countHeavy daily then adjustSoilRain detailedSoilData
           else detailedSoilData)) := by
  obtain ⟨ha, hr, hm⟩ := analyzeWeather_scan daily
  simp only [analyzeWeather, hr, hm]

/-- C2: when no day is a heavy-rain day and the maximum dry-hot run is shorter
than 3, the adjusted soil record equals the baseline in every field. -/
theorem claim_C2 (daily : List WeatherDaily)
    (h1 : ∀ d ∈ daily, isHeavyRainDay d = false)
    (h2 : maxDryHotRun daily < 3) :
    (analyzeWeather daily).adjustedSoil = detailedSoilData := by
  rw [analyzeWeather_adjusted daily, if_neg (by omega),
    if_neg (by rw [countHeavy_eq_zero daily h1]; omega)]
  with_unfolding_all decide

/-- Closed instance of `claim_C2` at the all-calm scenario. -/
theorem claim_C2_witness :
    (∀ d ∈ scenarioA, isHeavyRainDay d = false) ∧
    maxDryHotRun scenarioA < 3 ∧
    (analyzeWeather scenarioA).adjustedSoil = detailedSoilData :=
  ⟨by with_unfolding_all decide, by with_unfolding_all decide,
    claim_C2 scenarioA (by with_unfolding_all decide) (by with_unfolding_all decide)⟩

/-- C5: in every adjusted record the macro-nutrient and general-metric
statuses equal the threshold-derived status of their post-adjustment numeric
value, and the micro-nutrient entries keep their baseline values and statuses. -/
theorem claim_C5 (daily : List WeatherDaily) :
    ((analyzeWeather daily).adjustedSoil.macroNutrients.map (fun it => some it.status)
      = (analyzeWeather daily).adjustedSoil.macroNutrients.map
          (fun it => thresholdStatus it.name (num it.value))) ∧
    ((analyzeWeather daily).adjustedSoil.general.map (fun it => some it.status)
      = (analyzeWeather daily).adjustedSoil.general.map
          (fun it => thresholdStatus it.name (num it.value))) ∧
    (analyzeWeather daily).adjustedSoil.microNutrients
      = detailedSoilData.microNutrients := by
  rw [analyzeWeather_adjusted daily]
  by_cases h2 : 3 ≤ maxDryHotRun daily
  · rw [if_pos h2]
    by_cases h1 : 1 ≤ countHeavy daily
    · rw [if_pos h1]
      with_unfolding_all decide
    · rw [if_neg h1]
      with_unfolding_all decide
  · rw [if_neg h2]
    by_cases h1 : 1 ≤ countHeavy daily
    · rw [if_pos h1]
      with_unfolding_all decide
    · rw [if_neg h1]
      with_unfolding_all decide

set_option maxRecDepth 40000 in
/-- C3: in the one-heavy-rain-day scenario, the adjusted Nitrogen, Potassium,
pH and Organic Carbon display values are "189 kg/ha", "110 kg/ha", "5.7" and
"0.44%", and the leaching alert is present. -/
theorem claim_C3 :
    ((analyzeWeather scenarioB).adjustedSoil.macroNutrients.find?
        (fun it => nameContains it.name "(N)")).map SoilItem.value = some "189 kg/ha" ∧
    ((analyzeWeather scenarioB).adjustedSoil.macroNutrients.find?
        (fun it => nameContains it.name "(K)")).map SoilItem.value = some "110 kg/ha" ∧
    ((analyzeWeather scenarioB).adjustedSoil.general.find?
        (fun it => nameContains it.name "pH")).map SoilItem.value = some "5.7" ∧
    ((analyzeWeather scenarioB).adjustedSoil.general.find?
        (fun it => nameContains it.name "Organic Carbon")).map SoilItem.value = some "0.44%" ∧
    leachingAlert ∈ (analyzeWeather scenarioB).alerts := by
  with_unfolding_all decide

set_option maxRecDepth 40000 in
/-- C4: in the three-consecutive-dry-hot-days scenario, the adjusted Potassium,
pH and Organic Carbon display values are "114 kg/ha", "5.9" and "0.46%", the
drought alert is present, and the irrigation recommendation is the
shorter/more-frequent-irrigation text. -/
theorem claim_C4 :
    ((analyzeWeather scenarioC).adjustedSoil.macroNutrients.find?
        (fun it => nameContains it.name "(K)")).map SoilItem.value = some "114 kg/ha" ∧
    ((analyzeWeather scenarioC).adjustedSoil.general.find?
        (fun it => nameContains it.name "pH")).map SoilItem.value = some "5.9" ∧
    ((analyzeWeather scenarioC).adjustedSoil.general.find?
        (fun it => nameContains it.name "Organic Carbon")).map SoilItem.value = some "0.46%" ∧
    droughtAlert ∈ (analyzeWeather scenarioC).alerts ∧
    (analyzeWeather scenarioC).recs.irrigation = irrigationHeatRec := by
  with_unfolding_all decide

set_option maxRecDepth 8000 in
/-- C9: the conversion table holds exactly the six stated factors; the acre
factor agrees with the reciprocal of the international acre (4046.8564224 m²)
to six significant figures, the hectare factor is exactly 1/10000, and a
10 000 m² field renders as "1.00" hectares. -/
theorem claim_C9 :
    conversionFactors =
      [("sq_m", 1), ("sq_ft", 10.7639), ("acres", 0.000247105),
       ("hectares", 0.0001), ("bigha", 0.000074752), ("katha", 0.00149505)] ∧
    |((conversionFactors.lookup "acres").getD 0) - 10 ^ 7 / 40468564224|
      ≤ 1 / (2 * 10 ^ 9) ∧
    (conversionFactors.lookup "hectares").getD 0 = 1 / 10000 ∧
    displayedArea 10000 "hectares" = "1.00" := by
  refine ⟨rfl, ?_, ?_, ?_⟩
  · have h : (conversionFactors.lookup "acres").getD 0 = (0.000247105 : ℚ) := rfl
    rw [h, abs_le]
    constructor <;> norm_num
  · have h : (conversionFactors.lookup "hectares").getD 0 = (0.0001 : ℚ) := rfl
    rw [h]
    norm_num
  · with_unfolding_all decide

set_option maxRecDepth 40000 in
/-- C10: `analyzeWeather` on the empty forecast yields the sentinel alert, the
baseline soil record and the default recommendations; a day with an absent
`rain`, `wind_speed` or `humidity` field can never count as a heavy-rain day
nor trigger the high-wind or fungal alert. -/
theorem claim_C10 :
    analyzeWeather [] =
      { alerts := [noRiskAlert], adjustedSoil := detailedSoilData,
        recs := defaultAdaptiveRecs } ∧
    (∀ d : WeatherDaily, d.rain = none → isHeavyRainDay d = false) ∧
    (∀ d : WeatherDaily, d.wind_speed = none → windCond d = false) ∧
    (∀ d : WeatherDaily, d.humidity = none → fungalCond d = false) := by
  refine ⟨by with_unfolding_all rfl, ?_, ?_, ?_⟩
  · intro d h
    rw [isHeavyRainDay, h]
    have e1 : decide ((50 : ℚ) ≤ (none : Option ℚ).getD 0) = false := by
      with_unfolding_all decide
    have e2 : decide ((30 : ℚ) ≤ (none : Option ℚ).getD 0) = false := by
      with_unfolding_all decide
    rw [e1, e2]
    simp
  · intro d h
    rw [windCond, h]
    with_unfolding_all decide
  · intro d h
    rw [fungalCond, h]
    have e1 : decide ((90 : ℚ) ≤ (none : Option ℚ).getD 0) = false := by
      with_unfolding_all decide
    rw [e1]
    simp

/-- Closed instance of `claim_C10` at a day with all optional fields absent. -/
theorem claim_C10_witness :
    bareDay.rain = none ∧ bareDay.wind_speed = none ∧ bareDay.humidity = none ∧
    isHeavyRainDay bareDay = false ∧ windCond bareDay = false ∧
    fungalCond bareDay = false :=
  ⟨rfl, rfl, rfl, claim_C10.2.1 bareDay rfl, claim_C10.2.2.1 bareDay rfl,
    claim_C10.2.2.2 bareDay rfl⟩

/-! ## Helper lemmas: the centroid loop -/

lemma foldl_centroidStep (l : List (ℚ × ℚ)) (L : List ℕ) (a b c : ℚ) :
    L.foldl (centroidStep l) (a, b, c)
      = (a + (L.map (crossAt l)).sum, b + (L.map (cxAt l)).sum,
         c + (L.map (cyAt l)).sum) := by
  induction L generalizing a b c with
  | nil => simp
  | cons i L ih =>
    rw [List.foldl_cons, centroidStep, ih]
    simp [add_assoc]

lemma computeCentroid_eq (l : List (ℚ × ℚ)) (h : l ≠ []) :
    computeCentroid l =
      if |signedArea l| < 1e-12 then some (l.getD 0 (0, 0))
      else some (centroidX l, centroidY l) := by
  cases l with
  | nil => exact absurd rfl h
  | cons c0 rest =>
    have harea :
        (((List.range (c0 :: rest).length).map (crossAt (c0 :: rest))).sum) * 0.5
          = signedArea (c0 :: rest) := by
      rw [signedArea]
      have h05 : (0.5 : ℚ) = 1 / 2 := by norm_num
      rw [h05]
      ring
    simp only [computeCentroid, foldl_centroidStep, zero_add]
    rw [harea]
    by_cases hc : |signedArea (c0 :: rest)| < 1e-12
    · rw [if_pos hc, if_pos hc]
      rfl
    · rw [if_neg hc, if_neg hc, centroidX, centroidY,
        one_div_mul_eq_div, one_div_mul_eq_div]

/-- C6: `computeCentroid` returns `none` on the empty list, the first vertex
verbatim when the absolute signed shoelace area is below the `1e-12` epsilon,
and otherwise exactly the shoelace centroid — where the formula branch is only
reached with a provably nonzero area (no division by near-zero). -/
theorem claim_C6 (coords : List (ℚ × ℚ)) :
    (coords = [] → computeCentroid coords = none) ∧
    (coords ≠ [] → |signedArea coords| < 1e-12 →
      computeCentroid coords = some (coords.getD 0 (0, 0))) ∧
    ((1e-12 : ℚ) ≤ |signedArea coords| →
      signedArea coords ≠ 0 ∧
      computeCentroid coords = some (centroidX coords, centroidY coords)) := by
  refine ⟨?_, ?_, ?_⟩
  · rintro rfl
    rfl
  · intro h hlt
    rw [computeCentroid_eq coords h, if_pos hlt]
  · intro hge
    have hne : coords ≠ [] := by
      rintro rfl
      rw [show signedArea [] = 0 by simp [signedArea], abs_zero] at hge
      norm_num at hge
    have hA : signedArea coords ≠ 0 := by
      intro h0
      rw [h0, abs_zero] at hge
      norm_num at hge
    refine ⟨hA, ?_⟩
    rw [computeCentroid_eq coords hne, if_neg (not_lt.2 hge)]

/-- Closed instance of `claim_C6` at the unit square. -/
theorem claim_C6_witness :
    (1e-12 : ℚ) ≤ |signedArea unitSquare| ∧
    signedArea unitSquare ≠ 0 ∧
    computeCentroid unitSquare = some (centroidX unitSquare, centroidY unitSquare) := by
  have h : (1e-12 : ℚ) ≤ |signedArea unitSquare| := by with_unfolding_all decide
  exact ⟨h, (claim_C6 unitSquare).2.2 h⟩

/-- C7 as stated is false: `bowtiePoly` is a self-intersecting quadrilateral
with at least 3 vertices, not all collinear, and nonzero signed area, yet the
returned centroid `(7/10, 4)` lies outside the convex hull of its vertices
(every vertex has second coordinate at most 1). -/
theorem claim_C7_counterexample :
    3 ≤ bowtiePoly.length ∧
    ¬ Collinear ℚ {x : ℚ × ℚ | x ∈ bowtiePoly} ∧
    signedArea bowtiePoly ≠ 0 ∧
    computeCentroid bowtiePoly = some (7 / 10, 4) ∧
    (7 / 10, 4) ∉ convexHull ℚ {x : ℚ × ℚ | x ∈ bowtiePoly} := by
  refine ⟨by decide, ?_, by with_unfolding_all decide, by with_unfolding_all decide, ?_⟩
  · intro hcol
    have h0 : ((0 : ℚ), (0 : ℚ)) ∈ {x : ℚ × ℚ | x ∈ bowtiePoly} := by
      simp [bowtiePoly]
    rcases (collinear_iff_of_mem h0).1 hcol with ⟨v, hv⟩
    rcases hv (1, 0) (by simp [bowtiePoly]) with ⟨a, ha⟩
    rcases hv (0, 1) (by simp [bowtiePoly]) with ⟨b, hb⟩
    rw [Prod.ext_iff] at ha hb
    simp only [vadd_eq_add, Prod.fst_add, Prod.snd_add, Prod.smul_fst, Prod.smul_snd,
      smul_eq_mul, add_zero] at ha hb
    obtain ⟨ha1, ha2⟩ := ha
    obtain ⟨hb1, hb2⟩ := hb
    have hva : a ≠ 0 := by
      intro h
      rw [h, zero_mul] at ha1
      norm_num at ha1
    have hv2 : v.2 = 0 := by
      rcases mul_eq_zero.1 ha2.symm with h | h
      · exact absurd h hva
      · exact h
    rw [hv2, mul_zero] at hb2
    norm_num at hb2
  · have hsub : {x : ℚ × ℚ | x ∈ bowtiePoly} ⊆ {p : ℚ × ℚ | p.2 ≤ 1} := by
      intro p hp
      simp only [bowtiePoly, Set.mem_setOf_eq, List.mem_cons, List.mem_singleton,
        List.not_mem_nil, or_false] at hp
      rcases hp with rfl | rfl | rfl | rfl <;> norm_num
    have hconv : Convex ℚ {p : ℚ × ℚ | p.2 ≤ 1} := by
      intro p hp q hq a b ha hb hab
      simp only [Set.mem_setOf_eq] at hp hq ⊢
      have hs : (a • p + b • q).2 = a * p.2 + b * q.2 := rfl
      rw [hs]
      calc a * p.2 + b * q.2 ≤ a * 1 + b * 1 :=
            add_le_add (mul_le_mul_of_nonneg_left hp ha) (mul_le_mul_of_nonneg_left hq hb)
        _ = 1 := by rw [mul_one, mul_one, hab]
    intro hmem
    have hy := convexHull_min hsub hconv hmem
    simp only [Set.mem_setOf_eq] at hy
    norm_num at hy

/-- C7 amended: for every triangle (exactly 3 vertices) whose absolute signed
shoelace area is at least the epsilon, the point returned by `computeCentroid`
(the vertex average) lies within the convex hull of the vertices. -/
theorem claim_C7_amended (v0 v1 v2 : ℚ × ℚ)
    (h : (1e-12 : ℚ) ≤ |signedArea [v0, v1, v2]|) :
    ∃ p, computeCentroid [v0, v1, v2] = some p ∧
      p ∈ convexHull ℚ {x : ℚ × ℚ | x ∈ [v0, v1, v2]} := by
  have hA : signedArea [v0, v1, v2] ≠ 0 := by
    intro h0
    rw [h0, abs_zero] at h
    norm_num at h
  have h6 : 6 * signedArea [v0, v1, v2] ≠ 0 := mul_ne_zero (by norm_num) hA
  have hsa : signedArea [v0, v1, v2]
      = (1 / 2) * ((v0.1 * v1.2 - v1.1 * v0.2)
        + ((v1.1 * v2.2 - v2.1 * v1.2) + ((v2.1 * v0.2 - v0.1 * v2.2) + 0))) := by
    with_unfolding_all rfl
  have hSx : ((List.range ([v0, v1, v2] : List (ℚ × ℚ)).length).map (cxAt [v0, v1, v2])).sum
      = (v0.1 + v1.1) * (v0.1 * v1.2 - v1.1 * v0.2)
        + ((v1.1 + v2.1) * (v1.1 * v2.2 - v2.1 * v1.2)
        + ((v2.1 + v0.1) * (v2.1 * v0.2 - v0.1 * v2.2) + 0)) := by
    with_unfolding_all rfl
  have hSy : ((List.range ([v0, v1, v2] : List (ℚ × ℚ)).length).map (cyAt [v0, v1, v2])).sum
      = (v0.2 + v1.2) * (v0.1 * v1.2 - v1.1 * v0.2)
        + ((v1.2 + v2.2) * (v1.1 * v2.2 - v2.1 * v1.2)
        + ((v2.2 + v0.2) * (v2.1 * v0.2 - v0.1 * v2.2) + 0)) := by
    with_unfolding_all rfl
  have h3 : (3 : ℚ) ≠ 0 := by norm_num
  have hcx : centroidX [v0, v1, v2] = (v0.1 + v1.1 + v2.1) / 3 := by
    simp only [centroidX]
    rw [one_div_mul_eq_div, hSx, div_eq_div_iff h6 h3, hsa]
    ring
  have hcy : centroidY [v0, v1, v2] = (v0.2 + v1.2 + v2.2) / 3 := by
    simp only [centroidY]
    rw [one_div_mul_eq_div, hSy, div_eq_div_iff h6 h3, hsa]
    ring
  have hv0 : v0 ∈ {x : ℚ × ℚ | x ∈ ([v0, v1, v2] : List (ℚ × ℚ))} := by simp
  have hv1 : v1 ∈ {x : ℚ × ℚ | x ∈ ([v0, v1, v2] : List (ℚ × ℚ))} := by simp
  have hv2 : v2 ∈ {x : ℚ × ℚ | x ∈ ([v0, v1, v2] : List (ℚ × ℚ))} := by simp
  have hm01 : (1 / 2 : ℚ) • v0 + (1 / 2 : ℚ) • v1
      ∈ convexHull ℚ {x : ℚ × ℚ | x ∈ ([v0, v1, v2] : List (ℚ × ℚ))} :=
    (convex_convexHull ℚ _) (subset_convexHull ℚ _ hv0) (subset_convexHull ℚ _ hv1)
      (by norm_num) (by norm_num) (by norm_num)
  have hm : (2 / 3 : ℚ) • ((1 / 2 : ℚ) • v0 + (1 / 2 : ℚ) • v1) + (1 / 3 : ℚ) • v2
      ∈ convexHull ℚ {x : ℚ × ℚ | x ∈ ([v0, v1, v2] : List (ℚ × ℚ))} :=
    (convex_convexHull ℚ _) hm01 (subset_convexHull ℚ _ hv2)
      (by norm_num) (by norm_num) (by norm_num)
  have hcomb : ((v0.1 + v1.1 + v2.1) / 3, (v0.2 + v1.2 + v2.2) / 3)
      = (2 / 3 : ℚ) • ((1 / 2 : ℚ) • v0 + (1 / 2 : ℚ) • v1) + (1 / 3 : ℚ) • v2 :=
    Prod.ext_iff.2 ⟨by simp only [Prod.fst_add, Prod.smul_fst, smul_eq_mul]; ring,
      by simp only [Prod.snd_add, Prod.smul_snd, smul_eq_mul]; ring⟩
  refine ⟨(centroidX [v0, v1, v2], centroidY [v0, v1, v2]), ?_, ?_⟩
  · rw [computeCentroid_eq _ (by simp), if_neg (not_lt.2 h)]
  · rw [hcx, hcy, hcomb]
    exact hm

/-- Closed instance of `claim_C7_amended` at a concrete right triangle. -/
theorem claim_C7_amended_witness :
    (1e-12 : ℚ) ≤ |signedArea triEx| ∧
    ∃ p, computeCentroid triEx = some p ∧
      p ∈ convexHull ℚ {x : ℚ × ℚ | x ∈ triEx} := by
  have h : (1e-12 : ℚ) ≤ |signedArea triEx| := by with_unfolding_all decide
  exact ⟨h, claim_C7_amended (0, 0) (1, 0) (0, 1) h⟩
